import Mathlib

/-!
Verification development for the SISU-attainment → Europass-credential
mapping library. Rust sources are shallowly embedded: structs become
structures or (when recursive) inductives, enums become inductives,
`TryFrom`/`FromStr`/serde deserialization become functions into `Except`,
and the `todo!()` mapping stub is modelled as an explicitly panicking
outcome. Machine numbers: `f64`/`serde_json::Number` payloads are modelled
as `Rat` where arithmetic is reasoned about and `Float` where the value is
only carried; `u64` as `Nat`; `i32` years as `Nat` (the library only
handles CE dates written as digit strings).
-/

set_option maxHeartbeats 1000000
set_option maxRecDepth 10000

namespace chrono

/-- Model of `chrono::naive::NaiveDate`: a calendar date. -/
structure NaiveDate where
  year : Nat
  month : Nat
  day : Nat
  deriving DecidableEq, Repr

/-- Model of `chrono::naive::NaiveDateTime`: a date with a second count. -/
structure NaiveDateTime where
  date : NaiveDate
  seconds : Nat
  deriving DecidableEq, Repr

/-- Interpret a list of characters as a base-10 number; `none` if the list
is empty or contains a non-digit. Used by the date-parsing model. -/
def digitsToNat : List Char → Option Nat
  | [] => none
  | cs =>
    if cs.all (fun c => c.isDigit) then
      some (cs.foldl (fun n c => n * 10 + (c.toNat - 48)) 0)
    else none

/-- Split a character list at every dash, keeping (possibly empty) groups.
Helper for the date-parsing model; written recursively so that it reduces
inside the kernel. -/
def splitOnDash : List Char → List (List Char)
  | [] => [[]]
  | c :: rest =>
    if c = '-' then [] :: splitOnDash rest
    else
      match splitOnDash rest with
      | [] => [[c]]
      | g :: gs => (c :: g) :: gs

/-- Gregorian leap-year test, as validated by chrono. -/
def isLeapYear (y : Nat) : Bool :=
  y % 4 = 0 && (y % 100 ≠ 0 || y % 400 = 0)

/-- Number of days of a month, February depending on the leap-year rule. -/
def daysInMonth (y : Nat) (m : Nat) : Nat :=
  if m = 2 then (if isLeapYear y then 29 else 28)
  else if m = 4 ∨ m = 6 ∨ m = 9 ∨ m = 11 then 30
  else 31

/-- Model of the `%Y-%m-%d` parsing that `chrono::naive::NaiveDate`
performs when deserialized from a JSON string: exactly three dash-separated
all-digit groups of widths 4, 2 and 2, with the month and day checked
against the real calendar. Malformed input gives `none`; no default date is
ever produced. -/
def NaiveDate.parse (s : String) : Option NaiveDate :=
  match splitOnDash s.toList with
  | [ys, ms, ds] =>
    if ys.length = 4 ∧ ms.length = 2 ∧ ds.length = 2 then
      match digitsToNat ys, digitsToNat ms, digitsToNat ds with
      | some y, some m, some d =>
        if 1 ≤ m ∧ m ≤ 12 ∧ 1 ≤ d ∧ d ≤ daysInMonth y m then
          some ⟨y, m, d⟩
        else none
      | _, _, _ => none
    else none
  | _ => none

end chrono

namespace controlled_vocabularies

/-- Enumeration of the standard list of EU accreditation types
(`AccreditationType` in `controlled_vocabularies.rs`). -/
inductive AccreditationType where
  | InstitutionalLicense
  | ProgramQualityAssurance
  | InstitutionalQualityAssurance
  | ProgramLicense
  deriving DecidableEq, Repr

/-- Europass standard list of assessment types. -/
inductive AssessmentType where
  | PeerAssessment
  | MarkedAssignment
  | ContinuousEvaluation
  | Portfolio
  | GroupPerformance
  | PracticalAssessment
  | WrittenExamination
  | LevelOfAttendance
  | ProjectWork
  | PeerReview
  | Quiz
  | ProblemBasedLearning
  | OralExamination
  | ArtefactAssessment
  deriving DecidableEq, Repr

/-- Enumeration of the standard Europass credential types. -/
inductive CredentialType where
  | LearningActivity
  | QualificationAward
  | DiplomaSupplement
  | LearningEntitlement
  | Generic
  deriving DecidableEq, Repr

/-- Enumeration of standard Europass entitlement statuses. -/
inductive EntitlementStatus where
  | Prospective
  | Actual
  deriving DecidableEq, Repr

/-- Enumeration of standard Europass entitlement types. -/
inductive EntitlementType where
  | Occupation
  | LearningOpportunity
  | Membership
  deriving DecidableEq, Repr

/-- Europass standard list of learning-setting types. -/
inductive LearningSettingType where
  | FormalLearning
  | NonFormalLearning
  deriving DecidableEq, Repr

/-- Europass standard list of modes of learning and assessment. -/
inductive ModeOfLearningType where
  | WorkBased
  | ProjectBased
  | Presential
  | Online
  | Blended
  | ResearchLabBased
  deriving DecidableEq, Repr

/-- Europass standard list of target groups. -/
inductive LearningTargetGroup where
  | HighAchievers
  | NonNativeSpeakers
  | RequiringEmploymentRetraining
  | InTertiaryEducationEQF6
  | CompletedPrimaryEducation
  | InCompulsoryEducation
  | CompletedTertiaryEducationEQF7
  | InPrimaryEducation
  | WorkedLessThan3Years
  | CompletedTertiaryEducationEQF8
  | CompletedCompulsoryEducation
  | InTertiaryEducationEQF7
  | InTertiaryEducationEQF8
  | Migrants
  | Worked3to10Years
  | WorkedOver10Years
  | WithLearningDisability
  | NativeSpeakers
  | CompletedTertiaryEducationEQF6
  | LowAchievers
  deriving DecidableEq, Repr

/-- Enumeration of the standard Europass verification statuses. -/
inductive VerificationStatus where
  | Gray
  | Green
  | Red
  deriving DecidableEq, Repr

/-- Enumeration of the standard Europass verification types. -/
inductive VerificationType where
  | Owner
  | Revocation
  | Format
  | Validity
  | Custom
  | Accreditation
  | Seal
  deriving DecidableEq, Repr

/-- Indirect means of accessing an instance of `VerificationType`
(`SupervisionAndVerificationType` in the source). -/
structure SupervisionAndVerificationType where
  val : VerificationType
  deriving DecidableEq, Repr

/-- Modelled from the spec: the type `controlled_vocabularies::Language` is
referenced by `LearningSpecification` in `europass_learning_model.rs` but
its definition is missing from the sources; the spec fixes the language
set to the 24 official EU languages, matching the `EuropeanLanguage`
enumeration that the sources do contain. -/
inductive Language where
  | Bulgarian
  | Croatian
  | Czech
  | Danish
  | Dutch
  | English
  | Estonian
  | Finnish
  | French
  | German
  | Greek
  | Hungarian
  | Irish
  | Italian
  | Latvian
  | Lithuanian
  | Maltese
  | Polish
  | Portugese
  | Romanian
  | Slovak
  | Slovene
  | Spanish
  | Swedish
  deriving DecidableEq, Repr

/-- Measurement-unit authority table of the MDR
(`MDRunit` in `controlled_vocabularies.rs`). -/
inductive MDRunit where
  | Decibel
  | Manmonth
  | Byte
  | Ampere
  | Bar
  | Bit
  | Becquerel
  | Mole
  | Nanometre
  | Candela
  | DegreeCelsius
  | SquareCentimetre
  | CubicCentimetre
  | Centimetre
  | TeraJoule
  | GigaByte
  | Gram
  | GrossTonnage
  | GigaWattHour
  | Hectare
  | HectoLitre
  | Hertz
  | Hour
  | Joule
  | Kelvin
  | Kilogram
  | KilometrePerHour
  | SquareKilometre
  | Kilometre
  | KiloWattHour
  | KiloWatt
  | LabourHour
  | Litre
  | MegaWatt
  | MilliGram
  | Minute
  | MilliLitre
  | MilliMetre
  | SquareMetre
  | Metre
  | MetrePerSecond
  | Newton
  | Pascal
  | Second
  | TonneKilometre
  | Tonne
  | TonneOfOilEquvalent
  | Volt
  | Watt
  deriving DecidableEq, Repr

/-- Embedding of `impl TryFrom<&str> for MDRunit`: the 49-arm exact,
case-sensitive string match of the source, in source order, falling
through to the source's error string. -/
def MDRunit.tryFrom (value : String) : Except String MDRunit :=
  match value with
  | "2N" => .ok .Decibel
  | "3C" => .ok .Manmonth
  | "AD" => .ok .Byte
  | "AMP" => .ok .Ampere
  | "BAR" => .ok .Bar
  | "BIT" => .ok .Bit
  | "BQL" => .ok .Becquerel
  | "C34" => .ok .Mole
  | "C45" => .ok .Nanometre
  | "CDL" => .ok .Candela
  | "CEL" => .ok .DegreeCelsius
  | "CMK" => .ok .SquareCentimetre
  | "CMQ" => .ok .CubicCentimetre
  | "CMT" => .ok .Centimetre
  | "D30" => .ok .TeraJoule
  | "E34" => .ok .GigaByte
  | "GRM" => .ok .Gram
  | "GTE" => .ok .GrossTonnage
  | "GWH" => .ok .GigaWattHour
  | "HAR" => .ok .Hectare
  | "HLT" => .ok .HectoLitre
  | "HTZ" => .ok .Hertz
  | "HUR" => .ok .Hour
  | "JOU" => .ok .Joule
  | "KEL" => .ok .Kelvin
  | "KGM" => .ok .Kilogram
  | "KMH" => .ok .KilometrePerHour
  | "KMK" => .ok .SquareKilometre
  | "KTM" => .ok .Kilometre
  | "KWH" => .ok .KiloWattHour
  | "KWT" => .ok .KiloWatt
  | "LH" => .ok .LabourHour
  | "LTR" => .ok .Litre
  | "MAW" => .ok .MegaWatt
  | "MGM" => .ok .MilliGram
  | "MIN" => .ok .Minute
  | "MLT" => .ok .MilliLitre
  | "MMT" => .ok .MilliMetre
  | "MTK" => .ok .SquareMetre
  | "MTR" => .ok .Metre
  | "MTS" => .ok .MetrePerSecond
  | "NEW" => .ok .Newton
  | "PAL" => .ok .Pascal
  | "SEC" => .ok .Second
  | "TKM" => .ok .TonneKilometre
  | "TNE" => .ok .Tonne
  | "TOE" => .ok .TonneOfOilEquvalent
  | "VLT" => .ok .Volt
  | "WTT" => .ok .Watt
  | _ => .error "Could not form a Europass measure from a string…"

/-- Code/term pairs of the `MDRunit` match, in source order. -/
def MDRunitTable : List (String × MDRunit) :=
  [("2N", .Decibel), ("3C", .Manmonth), ("AD", .Byte), ("AMP", .Ampere),
   ("BAR", .Bar), ("BIT", .Bit), ("BQL", .Becquerel), ("C34", .Mole),
   ("C45", .Nanometre), ("CDL", .Candela), ("CEL", .DegreeCelsius),
   ("CMK", .SquareCentimetre), ("CMQ", .CubicCentimetre),
   ("CMT", .Centimetre), ("D30", .TeraJoule), ("E34", .GigaByte),
   ("GRM", .Gram), ("GTE", .GrossTonnage), ("GWH", .GigaWattHour),
   ("HAR", .Hectare), ("HLT", .HectoLitre), ("HTZ", .Hertz),
   ("HUR", .Hour), ("JOU", .Joule), ("KEL", .Kelvin), ("KGM", .Kilogram),
   ("KMH", .KilometrePerHour), ("KMK", .SquareKilometre),
   ("KTM", .Kilometre), ("KWH", .KiloWattHour), ("KWT", .KiloWatt),
   ("LH", .LabourHour), ("LTR", .Litre), ("MAW", .MegaWatt),
   ("MGM", .MilliGram), ("MIN", .Minute), ("MLT", .MilliLitre),
   ("MMT", .MilliMetre), ("MTK", .SquareMetre), ("MTR", .Metre),
   ("MTS", .MetrePerSecond), ("NEW", .Newton), ("PAL", .Pascal),
   ("SEC", .Second), ("TKM", .TonneKilometre), ("TNE", .Tonne),
   ("TOE", .TonneOfOilEquvalent), ("VLT", .Volt), ("WTT", .Watt)]

/-- Measurement-unit codes accepted by `MDRunit.tryFrom`. -/
def MDRunitCodes : List String := MDRunitTable.map Prod.fst

/-- Currency authority table entry (`MDRcurrency` in the source):
a struct holding the accepted ISO 4217 code. -/
structure MDRcurrency where
  code : String
  deriving DecidableEq, Repr

/-- Currency codes of the 273-arm match in
`impl TryFrom<&str> for MDRcurrency`, in source order. -/
def MDRcurrencyCodes : List String :=
  ["ADP", "AED", "AFA", "AFN", "ALK", "ALL", "AMD", "ANG", "AOA", "AON",
   "AOR", "ARA", "ARM", "ARP", "ARS", "ATS", "AUD", "AWG", "AZM", "AZN",
   "BAM", "BBD", "BDT", "BEF", "BGJ", "BGK", "BGL", "BGN", "BHD", "BIF",
   "BMD", "BND", "BOB", "BOP", "BOV", "BRB", "BRC", "BRE", "BRL", "BRN",
   "BRR", "BRZ", "BSD", "BTN", "BWP", "BYN", "BYR", "BZD", "CAD", "CDF",
   "CHE", "CHF", "CHW", "CLE", "CLF", "CLP", "CNY", "COP", "COU", "CRC",
   "CSJ", "CSK", "CUC", "CUP", "CVE", "CYP", "CZK", "DDM", "DEM", "DJF",
   "DKK", "DOP", "DZD", "ECS", "EEK", "EGP", "ERN", "ESP", "ETB", "EUR",
   "FIM", "FJD", "FKP", "FRF", "GBP", "GEL", "GHC", "GHS", "GIP", "GMD",
   "GNE", "GNF", "GQE", "GRD", "GTQ", "GWP", "GYD", "HKD", "HNL", "HRK",
   "HTG", "HUF", "IDR", "IEP", "ILP", "ILR", "ILS", "INR", "IQD", "IRR",
   "ISJ", "ISK", "ITL", "JMD", "JOD", "JPY", "KES", "KGS", "KHR", "KMF",
   "KPW", "KRW", "KWD", "KYD", "KZT", "LAJ", "LAK", "LBP", "LKR", "LRD",
   "LSL", "LTL", "LUF", "LVL", "LYD", "MAD", "MDL", "MGA", "MGF", "MKD",
   "MLF", "MMK", "MNT", "MOP", "MRO", "MRU", "MTL", "MTP", "MUR", "MVQ",
   "MVR", "MWK", "MXN", "MXP", "MXV", "MYR", "MZM", "MZN", "NAD", "NFD",
   "NGN", "NIO", "NLG", "NOK", "NPR", "NZD", "OMR", "PAB", "PEH", "PEI",
   "PEN", "PGK", "PHP", "PKR", "PLN", "PLZ", "PTE", "PYG", "QAR", "ROL",
   "RON", "RSD", "RUB", "RUR", "RWF", "SAR", "SBD", "SCR", "SDD", "SDG",
   "SEK", "SGD", "SHP", "SIT", "SKK", "SLL", "SOS", "SRD", "SRG", "SSP",
   "STD", "STN", "SUR", "SVC", "SYP", "SZL", "THB", "TJR", "TJS", "TMM",
   "TMT", "TND", "TOP", "TPE", "TRL", "TRY", "TTD", "TWD", "TZS", "UAH",
   "UAK", "UGS", "UGX", "USD", "USN", "USS", "UYI", "UYN", "UYU", "UYW",
   "UZS", "VEB", "VEF", "VES", "VNC", "VND", "VUV", "WST", "XAF", "XAG",
   "XAU", "XBA", "XBB", "XBC", "XBD", "XCD", "XDR", "XEU", "XOF", "XPD",
   "XPF", "XPT", "XSU", "XTS", "XUA", "XXX", "YDD", "YER", "YUD", "YUF",
   "YUM", "YUN", "YUS", "ZAR", "ZMK", "ZMW", "ZRN", "ZRZ", "ZWC", "ZWD",
   "ZWL", "ZWN", "ZWR"]

/-- Error text of the fall-through arm of the currency match: the source
formats the offending value into the message. -/
def currencyErrMsg (value : String) : String :=
  "Could not form an MDR standard currency code from string " ++ value ++ "…"

/-- Embedding of `impl TryFrom<&str> for MDRcurrency`. Every one of the
273 non-default arms of the source match has the identical right-hand side
`Ok(MDRcurrency { code: String::from(value) })` over the scrutinee
`value`, so the match is an exact, case-sensitive membership test over
`MDRcurrencyCodes` (listed above arm by arm in source order), keeping the
accepted string as the stored code and otherwise producing the formatted
error of the default arm. -/
def MDRcurrency.tryFrom (value : String) : Except String MDRcurrency :=
  if value ∈ MDRcurrencyCodes then .ok ⟨value⟩
  else .error (currencyErrMsg value)

end controlled_vocabularies

namespace european_qualifications_framework

/-- Enumeration of the standard Europass EQF qualification levels. -/
inductive EQFLevel where
  | Level1
  | Level2
  | Level3
  | Level4
  | Level5
  | Level6
  | Level7
  | Level8
  deriving DecidableEq, Repr

end european_qualifications_framework

namespace national_qualification_frameworks

/-- Empty national qualification framework enumeration for Austria. -/
inductive AustriaNQF where

/-- Empty NQF enumeration for Bosnia and Herzegovina. -/
inductive BosniaAndHerzegovinaNQF where

/-- Empty NQF enumeration for Bulgaria. -/
inductive BulgariaNQF where

/-- Empty NQF enumeration for Croatia. -/
inductive CroatiaNQF where

/-- Empty NQF enumeration for Cyprus. -/
inductive CyprusNQF where

/-- Empty NQF enumeration for the Czech Republic. -/
inductive CzechRepublicNQF where

/-- Empty NQF enumeration for Denmark. -/
inductive DenmarkNQF where

/-- Empty NQF enumeration for Germany. -/
inductive GermanyNQF where

/-- Empty NQF enumeration for Estonia. -/
inductive EstoniaNQF where

/-- National qualification framework levels of Finland, the only
populated national enumeration in the source. -/
inductive FinlandNQF where
  | Level2
  | Level3
  | Level4
  | Level5
  | Level6
  | Level7
  | Level8
  deriving DecidableEq, Repr

/-- Empty NQF enumeration for France. -/
inductive FranceNQF where

/-- Empty NQF enumeration for Greece. -/
inductive GreeceNQF where

/-- Empty NQF enumeration for Hungary. -/
inductive HungaryNQF where

/-- Empty NQF enumeration for Iceland. -/
inductive IcelandNQF where

/-- Empty NQF enumeration for Ireland. -/
inductive IrelandNQF where

/-- Empty NQF enumeration for Italy. -/
inductive ItalyNQF where

/-- Empty NQF enumeration for Latvia. -/
inductive LatviaNQF where

/-- Empty NQF enumeration for Liechtenstein. -/
inductive LiechtensteinNQF where

/-- Empty NQF enumeration for Lithuania. -/
inductive LithuaniaNQF where

/-- Empty NQF enumeration for Luxembourg. -/
inductive LuxembourgNQF where

/-- Empty NQF enumeration for North Macedonia. -/
inductive NorthMacedoniaNQF where

/-- Empty NQF enumeration for Malta. -/
inductive MaltaNQF where

/-- Empty NQF enumeration for Montenegro. -/
inductive MontenegroNQF where

/-- Empty NQF enumeration for the Netherlands. -/
inductive NetherlandsNQF where

/-- Empty NQF enumeration for Norway. -/
inductive NorwayNQF where

/-- Empty NQF enumeration for Poland. -/
inductive PolandNQF where

/-- Empty NQF enumeration for Portugal. -/
inductive PortugalNQF where

/-- Empty NQF enumeration for Romania. -/
inductive RomaniaNQF where

/-- Empty NQF enumeration for Serbia. -/
inductive SerbiaNQF where

/-- Empty NQF enumeration for Slovakia. -/
inductive SlovakiaNQF where

/-- Empty NQF enumeration for Slovenia. -/
inductive SloveniaNQF where

/-- Empty NQF enumeration for Sweden. -/
inductive SwedenNQF where

/-- Empty NQF enumeration for Switzerland. -/
inductive SwitzerlandNQF where

/-- Empty NQF enumeration for Turkey. -/
inductive TurkeyNQF where

/-- Root of the shallow national qualification framework tree. -/
inductive NQF where
  | Austria (v : AustriaNQF)
  | BosniaAndHerzegovina (v : BosniaAndHerzegovinaNQF)
  | Bulgaria (v : BulgariaNQF)
  | Croatia (v : CroatiaNQF)
  | Cyprus (v : CyprusNQF)
  | CzechRepublic (v : CzechRepublicNQF)
  | Denmark (v : DenmarkNQF)
  | Germany (v : GermanyNQF)
  | Estonia (v : EstoniaNQF)
  | Finland (v : FinlandNQF)
  | France (v : FranceNQF)
  | Greece (v : GreeceNQF)
  | Hungary (v : HungaryNQF)
  | Iceland (v : IcelandNQF)
  | Ireland (v : IrelandNQF)
  | Italy (v : ItalyNQF)
  | Latvia (v : LatviaNQF)
  | Liechtenstein (v : LiechtensteinNQF)
  | Lithuania (v : LithuaniaNQF)
  | Luxembourg (v : LuxembourgNQF)
  | NorthMacedonia (v : NorthMacedoniaNQF)
  | Malta (v : MaltaNQF)
  | Montenegro (v : MontenegroNQF)
  | Netherlands (v : NetherlandsNQF)
  | Norway (v : NorwayNQF)
  | Poland (v : PolandNQF)
  | Portugal (v : PortugalNQF)
  | Romania (v : RomaniaNQF)
  | Serbia (v : SerbiaNQF)
  | Slovakia (v : SlovakiaNQF)
  | Slovenia (v : SloveniaNQF)
  | Sweden (v : SwedenNQF)
  | Switzerland (v : SwitzerlandNQF)
  | Turkey (v : TurkeyNQF)

end national_qualification_frameworks

namespace europass_learning_model

open controlled_vocabularies european_qualifications_framework
open national_qualification_frameworks chrono

/-- Unit media class `InteractiveWebResource` of the source. -/
structure InteractiveWebResource where

/-- Unit media class `Phone` of the source. -/
structure Phone where

/-- Unit media class `MailBox` of the source. -/
structure MailBox where

/-- Unit media class `Address` of the source. -/
structure Address where

/-- Unit media class `Location` of the source. -/
structure Location where

/-- Unit media class `WebDocument` of the source. -/
structure WebDocument where

/-- Unit media class `MediaObject` of the source. -/
structure MediaObject where

/-- Unit media class `ImageObject` of the source. -/
structure ImageObject where

/-- Unit association class `AssociationObject` of the source. -/
structure AssociationObject where

/-- Unit placeholder struct `Achievement` of the source. -/
structure Achievement where

/-- Unit placeholder struct `LearningOpportunity` of the source. -/
structure LearningOpportunity where

/-- Unit placeholder struct `ScoringScheme` of the source. -/
structure ScoringScheme where

/-- Unit placeholder struct `EducationSubjectAssociation` of the source. -/
structure EducationSubjectAssociation where

/-- Unit placeholder struct `EducationLevelAssociation` of the source. -/
structure EducationLevelAssociation where

/-- Unit placeholder struct `EscoOccupationAssociation` of the source. -/
structure EscoOccupationAssociation where

/-- Unit placeholder struct `OccupationAssociation` of the source. -/
structure OccupationAssociation where

/-- Enumeration of the official EU languages as of 2013-07-01. -/
inductive EuropeanLanguage where
  | Bulgarian
  | Croatian
  | Czech
  | Danish
  | Dutch
  | English
  | Estonian
  | Finnish
  | French
  | German
  | Greek
  | Hungarian
  | Irish
  | Italian
  | Latvian
  | Lithuanian
  | Maltese
  | Polish
  | Portugese
  | Romanian
  | Slovak
  | Slovene
  | Spanish
  | Swedish
  deriving DecidableEq, Repr

/-- Uniform resource identifier: `struct URI(String)` of the source. -/
structure URI where
  val : String

/-- Character string identifying a resource within an identification
scheme (`Identifier` in `europass_learning_model.rs`, lines 889-913). -/
structure Identifier where
  content : String
  identifier_scheme_id : String
  identifier_scheme_version_id : String
  identifier_scheme_agency_id : String
  identifier_scheme_name : String
  identifier_scheme_agency_name : String
  issued_date : NaiveDate
  identifier_type : String

/-- Legal identifier with a spatial context. -/
structure LegalIdentifier where
  spatial_id : String

/-- Term from a controlled vocabulary (`Code` in the source). -/
structure Code where
  target_notation : String
  target_framework_uri : String
  target_framework : String
  target_name : String
  target_description : String
  uri : String

/-- Character string in the form of words of a language. -/
structure Text where
  content : String
  language : EuropeanLanguage

/-- Formatted character string with language, mimetype and topic. -/
structure Note where
  content : String
  language : EuropeanLanguage
  format : String
  topic : String

/-- Score associated with a credential; `content` is an `f64`. -/
structure Score where
  content : Float
  scoring_scheme : String

/-- Numeric score, extending `Score`. -/
structure NumericScore where
  content : Float

/-- Textual accreditation, extending `Score`. -/
structure TextualScore where
  content : String

/-- Standard measure with an MDR measurement unit. -/
structure Measure where
  content : Float
  unit : MDRunit

/-- Standard amount with an MDR currency unit. -/
structure Amount where
  content : Float
  unit : MDRcurrency

/-- Boolean indicator, `type IndicatorType = bool` in the source. -/
abbrev IndicatorType := Bool

/-- Rate per hundred, wrapping an `f64`. -/
structure PercentType where
  val : Float

/-- Positive integer wrapper over `u64`. -/
structure PositiveInteger where
  val : Nat

/-- Numeric value wrapper over `f64`. -/
structure Numeric where
  val : Float

/-- Time duration wrapper over `u64`. -/
structure Duration where
  val : Nat

/-- Types of attachment that can come with a Europass credential. -/
inductive EuropassAttachment where
  | PDF
  | PNG
  | JPEG
  deriving DecidableEq, Repr

/-- Cryptographic proof attached to a credential or presentation. -/
structure Proof where
  display_code : String
  background : ImageObject

/-- Contact details of an agent. -/
structure ContactInformation where
  note : Note
  description : Note
  postal_address : Address
  phone : Phone
  email : MailBox
  wallet_address : MailBox
  contact_form : InteractiveWebResource

/-- Abstract entity able to carry out actions. -/
structure Agent where
  id : URI
  identifier : Identifier
  agent_type : Code
  preferred_name : Text
  alternative_name : Text
  note : Note
  contact_point : ContactInformation

mutual

/-- Legal person / registered organisation. The self-referential
department/parent fields `has_unit` and `unit_of` are mandatory boxed
values in the source (`Box<Organisation>`, not `Option<Box<_>>`), exactly
as embedded here. -/
inductive Organisation where
  | mk
    (id : URI)
    (identifier : Identifier)
    (eidas_legal_identifier : Identifier)
    (registration : Identifier)
    (vat_identifier : Identifier)
    (tax_identifier : Identifier)
    (preferred_name : Text)
    (alternative_name : Text)
    (home_page : WebDocument)
    (has_location : Location)
    (has_accreditation : Accreditation)
    (has_unit : Organisation)
    (unit_of : Organisation)
    (logo : ImageObject)

/-- Quality assurance or licensing record of an organisation or
qualification. -/
inductive Accreditation where
  | mk
    (id : URI)
    (identifier : Identifier)
    (accreditation_type : AccreditationType)
    (title : Text)
    (description : Note)
    (decision : TextualScore)
    (report : WebDocument)
    (organisation : Organisation)
    (limit_qualification : Qualification)
    (limit_field : Code)
    (limit_eqf_level : EQFLevel)
    (limit_jurisdiction : Code)
    (accrediting_agent : Organisation)
    (issue_date : NaiveDateTime)
    (review_date : NaiveDateTime)
    (expiry_date : NaiveDateTime)
    (additional_note : Note)
    (home_page : WebDocument)
    (landing_page : WebDocument)
    (supplementary_document : WebDocument)

/-- Specification of an assessment and validation process awarded by a
competent authority. -/
inductive Qualification where
  | mk
    ( is_partial_qualification : IndicatorType)
    (eqf_level : EQFLevel)
    (nqf_level : NQF)
    (has_accreditation : Accreditation)

end

/-- Awarding activity related to a learning specification. -/
structure AwardingOpportunity where
  id : URI
  identifier : Identifier
  awarding_body : Organisation
  location : Code
  started_at_time : NaiveDateTime
  ended_at_time : NaiveDateTime

/-- Statement of what a learner knows and is able to do on completion of
a learning process. -/
structure LearningOutcome where
  id : URI
  identifier : Identifier
  name : Text
  description : Note
  learning_outcome_type : Code
  reusability_level : Code
  related_skill : Code
  related_esco_skill : Code

mutual

/-- Description of what a person may learn, expressed as learning
outcomes. The self-referential fields `has_part` and `specialisation_of`
are mandatory boxed values in the source. Field names keep the source's
spellings. -/
inductive LearningSpecification where
  | mk
    (id : URI)
    (identifier : Identifier)
    (learning_opportunity_type : Code)
    (title : Text)
    (alternative_labe : Text)
    (definition : Note)
    (learning_outcome_description : Note)
    (addtional_note : Note)
    (home_page : WebDocument)
    (supplemenary_document : WebDocument)
    (iscedfc_code : Code)
    (education_subject : EducationSubjectAssociation)
    (volume_of_learning : Duration)
    (ects_credit_points : NumericScore)
    (credit_points : NumericScore)
    (education_level : EducationLevelAssociation)
    (language : Language)
    (mode : ModeOfLearningType)
    (learning_setting : LearningSettingType)
    (maximum_duration : Duration)
    (target_group : LearningTargetGroup)
    (entry_requirements_note : Note)
    (learning_outcome : LearningOutcome)
    (learning_activity_specification : LearningActivitySpecification)
    (assessment_sppecification : AssessmentSpecification)
    (entitlement_specification : EntitlementSpecification)
    (awarding_opportunity : AwardingOpportunity)
    (has_part : LearningSpecification)
    (specialisation_of : LearningSpecification)

/-- Specification of a process leading to the acquisition of knowledge or
skills; self-referential through `has_part` and `specialisation_of`. -/
inductive LearningActivitySpecification where
  | mk
    (id : URI)
    (identifier : Identifier)
    (title : Text)
    (alternative_label : Text)
    (description : Note)
    (additional_note : Note)
    (home_page : WebDocument)
    (supplementary_document : WebDocument)
    (learning_activity_type : Code)
    (workload : Duration)
    (language : Code)
    (mode : Code)
    (teaches : LearningSpecification)
    (has_part : LearningActivitySpecification)
    (specialisation_of : LearningActivitySpecification)

/-- Specification of a process establishing attainment against criteria;
self-referential through `has_part` and `specialisation_of`. -/
inductive AssessmentSpecification where
  | mk
    (id : URI)
    (identifier : Identifier)
    (title : Text)
    (alternative_label : Text)
    (description : Note)
    (additional_note : Note)
    (home_page : WebDocument)
    (supplementary_document : WebDocument)
    (assessment_type : AssessmentType)
    (language : Code)
    (mode : Code)
    (grading_scheme : ScoringScheme)
    (proves : LearningSpecification)
    (has_part : AssessmentSpecification)
    (specialisation_of : AssessmentSpecification)

/-- Specification of a right a person has access to; self-referential
through `entitlement_specification` and `specialization_of`. -/
inductive EntitlementSpecification where
  | mk
    (id : URI)
    (identifier : Identifier)
    (title : Text)
    (alternative_label : Text)
    (description : Note)
    (additional_not : Note)
    (home_page : WebDocument)
    (supplementary_document : WebDocument)
    (entitlement_type : EntitlementType)
    (status : EntitlementStatus)
    (limit_organisation : Organisation)
    (limit_jurisdiction : Code)
    (limit_occupation : EscoOccupationAssociation)
    (limit_national_occupation : OccupationAssociation)
    (may_result_from : LearningSpecification)
    (entitlement_specification : EntitlementSpecification)
    (specialization_of : EntitlementSpecification)

end

/-- Histogram comparison of a student's grade with the course. -/
structure ShortenedGrading where
  percentage_lower : Numeric
  percentage_equal : Numeric
  precentage_higher : Numeric

/-- Description of a single score range of a result histogram. -/
structure ResultCategory where
  label : Text
  score : Score
  min_score : Score
  max_score : Score
  count : PositiveInteger

/-- Histogram of results achieved by the students of a course instance. -/
structure ResultDistribution where
  category : ResultCategory
  description : Note

/-- Set of criteria measuring levels of achievement. -/
structure GradingScheme where
  id : URI
  identifier : Identifier
  title : Text
  description : Note
  supplementary_document : WebDocument

/-- Result of a process establishing the extent of attainment;
self-referential through the mandatory `has_part`. -/
inductive Assessment where
  | mk
    (id : URI)
    (identifier : Identifier)
    (title : Text)
    (description : Text)
    (additional_note : Score)
    (grade : Score)
    (shortened_grading : ShortenedGrading)
    (result_distribution : ResultDistribution)
    (issued_date : NaiveDateTime)
    (id_verification : Code)
    (assessed_by : Agent)
    (specified_by : AssessmentSpecification)
    (has_part : Assessment)

/-- Process leading to the acquisition of knowledge or skills;
self-referential through the mandatory `has_part`. -/
inductive LearningActivity where
  | mk
    (id : URI)
    (identifier : Identifier)
    (title : Text)
    (description : Note)
    (additional_note : Note)
    (workload : Duration)
    (started_at_time : NaiveDateTime)
    (ended_at_time : NaiveDateTime)
    (directed_by : Agent)
    (location : Location)
    (specified_by : LearningActivitySpecification)
    (used_learning_opportunity : LearningOpportunity)
    (influenced : Achievement)
    (has_part : LearningActivity)

mutual

/-- Recognised and/or awarded set of learning outcomes of an individual;
self-referential through the mandatory `has_part`. Field names keep the
source's spellings. -/
inductive LearningAchievement where
  | mk
    (id : URI)
    (identifier : Identifier)
    (title : Text)
    (description : Note)
    (additional_note : Note)
    (was_derived_from : Assessment)
    (was_influenced_by : LearningActivity)
    (was_awarded_by : AwardingProcess)
    (has_part : LearningAchievement)
    (entitles_to : Entitlement)
    (specfied_by : LearningSpecification)
    (associated_learning_opportunity : LearningOpportunity)

/-- Process of an organisation awarding a learning achievement. -/
inductive AwardingProcess where
  | mk
    (id : URI)
    (identifier : Identifier)
    (description : Text)
    (additional_note : Text)
    (used : Assessment)
    (learning_achievement : LearningAchievement)
    (awarding_body : Organisation)
    (awarding_location : Location)
    (awarding_date : NaiveDateTime)

/-- Right acquired as a result of learning; self-referential through the
mandatory `has_part`. -/
inductive Entitlement where
  | mk
    (id : URI)
    (identifier : Identifier)
    (title : Text)
    (description : Note)
    (issued_date : NaiveDate)
    (expiry_date : NaiveDate)
    (additional_note : Note)
    (specified_by : EntitlementSpecification)
    (was_derived_from : LearningAchievement)
    (has_part : Entitlement)

end

/-- Formal outcome of an assessment and validation process. -/
structure QualificationAwarded where
  specified_by : Qualification

/-- Concrete human instance of an agent. -/
structure Person where
  id : URI
  national_id : LegalIdentifier
  identifier : Identifier
  full_name : Text
  given_names : Text
  family_name : Text
  birth_name : Text
  patronymic_name : Text
  date_of_birth : NaiveDate
  place_of_birth : Location
  gender : Code
  citizenship_country : Code
  has_location : Location
  performed : LearningActivity
  achieved : LearningAchievement
  entitled_to : Entitlement

/-- Set of claims made by an issuer using the Europass standards
(`EuropassCredential` in `europass_learning_model.rs`, lines 41-71).
The micro-credential composition field `contains` is
`Option<Box<EuropassCredential>>` in the source, while `issuer` is a
mandatory `Organisation` and `credential_subject` a mandatory `Person`. -/
inductive EuropassCredential where
  | mk
    (identifier : Identifier)
    (credential_type : CredentialType)
    (title : Text)
    (description : Note)
    (issuer : Organisation)
    (credential_subject : Person)
    (display : String)
    (attachment : EuropassAttachment)
    (proof : Proof)
    (contains : Option EuropassCredential)

/-- Verifiable credential wrapper around a Europass credential. -/
structure VerifiableCredential where
  id : URI
  issuance_date : NaiveDateTime
  issued : NaiveDateTime
  valid_from : NaiveDateTime
  expiration_date : NaiveDateTime
  europass_credential : EuropassCredential

/-- Verifiable presentation of a set of credentials. -/
structure VerifiablePresentation where
  id : URI

/-- Verification check run against a credential. -/
structure VerificationCheck where
  id : URI
  check_type : VerificationType
  subject : EuropassCredential
  status : VerificationStatus
  description : Note

/-- Verifiable presentation of a set of Europass credentials. Field names
keep the source's spellings. -/
structure EuropassPresentation where
  verfiable_credential : EuropassCredential
  verification_check : VerificationCheck
  proof : Proof

end europass_learning_model

namespace serde

/-- Model of the serde deserialization errors produced while reading a
SISU attainment: `invalidValue` models `Error::invalid_value(unexpected,
expecting)` as raised by the `RoleURN` visitor, `unknownVariant` the
derive-generated error for an enum string outside its fixed set, and
`dateParse` the error chrono raises for a malformed date string. -/
inductive DeError where
  | invalidValue (unexpected : String) (expecting : String)
  | unknownVariant (value : String)
  | dateParse (value : String)
  deriving DecidableEq, Repr

/-- Element-wise deserialization of a JSON sequence: the first failing
element aborts the whole sequence, as serde does for a `Vec` field.
Written with structural recursion so that it reduces in the kernel. -/
def mapDeserialize (f : α → Except DeError β) : List α → Except DeError (List β)
  | [] => .ok []
  | x :: xs => do
    let y ← f x
    let ys ← mapDeserialize f xs
    pure (y :: ys)

end serde

namespace json

/-- Map of language codes to plain strings, as found in the SISU JSON. -/
structure LocalizedString where
  en : String
  fi : String
  sv : String
  deriving DecidableEq, Repr

/-- Raw JSON shape of one entry of `acceptorPersons`: the role URN is
still an arbitrary string. -/
structure RawAcceptorPerson where
  person_id : String
  role_urn : String
  text : LocalizedString
  title : LocalizedString
  deriving DecidableEq, Repr

/-- Raw JSON shape of `creditTransferInfo`: the date is a string. -/
structure RawCreditTransferInfo where
  credit_transfer_date : String
  educational_institution_urn : String
  international_institution_urn : String
  organisation : String
  deriving DecidableEq, Repr

/-- Raw JSON shape of `gradeAverage`: the method is a string. -/
structure RawGradeAverage where
  grade_scale_id : String
  method : String
  total_included_credits : Rat
  value : Rat
  deriving DecidableEq, Repr

/-- Raw JSON shape of one entry of `organisations`. The share is a JSON
number, modelled as a rational. -/
structure RawOrganisationRoleShareBase where
  educational_institution_urn : String
  organisation_id : String
  role_urn : String
  share : Rat
  deriving DecidableEq, Repr

/-- Raw JSON shape of one SISU attainment as served by the SISU Swagger
API: every scalar is still a string, boolean or number. Field order and
names follow the `SISUAttainment` struct of the sources. -/
structure RawSISUAttainment where
  acceptor_persons : List RawAcceptorPerson
  additional_info : LocalizedString
  attainment_date : String
  attainment_language_urn : String
  credit_transfer_info : RawCreditTransferInfo
  credits : Rat
  document_state : String
  expiry_date : String
  grade_average : RawGradeAverage
  grade_id : Rat
  grade_scale_id : String
  id : String
  misregistration : Bool
  misregistration_rationale : String
  module_content_application_id : String
  organisations : List RawOrganisationRoleShareBase
  person_first_names : String
  person_id : String
  person_last_name : String
  person_student_number : String
  primary : Bool
  registration_date : String
  state : String
  student_application_id : String
  study_field_urn : String
  study_right_id : String
  study_weeks : Rat
  attainment_type : String
  verifier_person_id : String
  deriving DecidableEq, Repr

end json

namespace lib

/-- Role that an attainment creditor might possess
(`RoleURN` in `lib.rs`, lines 122-135). -/
inductive RoleURN where
  | ApprovedBy
  | CoordinatingSupervisor
  | CoordinatingProfessor
  | SupervisingProfessor
  | MoreSupervisingProfessor
  | Examinator
  | Supervisor
  | ThesisAdvisor
  | Examiner
  | PreliminaryExaminer
  | Opponent
  | Custos
  deriving DecidableEq, Repr

/-- Twelve attainment-acceptor URN strings accepted by both `RoleURN`
parsers, in source order. -/
def roleUrnStrings : List String :=
  ["urn:code:attainment-acceptor-type:approved-by",
   "urn:code:attainment-acceptor-type:coordinating-supervisor",
   "urn:code:attainment-acceptor-type:coordinating-professor",
   "urn:code:attainment-acceptor-type:supervising-professor",
   "urn:code:attainment-acceptor-type:more-supervising-professor",
   "urn:code:attainment-acceptor-type:examinator",
   "urn:code:attainment-acceptor-type:supervisor",
   "urn:code:attainment-acceptor-type:thesis-advisor",
   "urn:code:attainment-acceptor-type:examiner",
   "urn:code:attainment-acceptor-type:preliminary-examiner",
   "urn:code:attainment-acceptor-type:opponent",
   "urn:code:attainment-acceptor-type:custos"]

/-- Expecting-message of the `RoleURNVisitor`, written exactly as in the
source's `expecting` implementation. -/
def roleUrnExpecting : String := "an integer or string representing a Foo"

/-- Embedding of `RoleURNVisitor::visit_str` from the custom
`Deserialize` implementation for `RoleURN` in `lib.rs` (lines 137-182):
an exact string match over the twelve URNs; anything else raises
`Error::invalid_value(Unexpected::Str(s), &self)`, modelled as an
`invalidValue` error carrying the raw string and the expecting message. -/
def RoleURN.visitStr (s : String) : Except serde.DeError RoleURN :=
  match s with
  | "urn:code:attainment-acceptor-type:approved-by" => .ok .ApprovedBy
  | "urn:code:attainment-acceptor-type:coordinating-supervisor" => .ok .CoordinatingSupervisor
  | "urn:code:attainment-acceptor-type:coordinating-professor" => .ok .CoordinatingProfessor
  | "urn:code:attainment-acceptor-type:supervising-professor" => .ok .SupervisingProfessor
  | "urn:code:attainment-acceptor-type:more-supervising-professor" => .ok .MoreSupervisingProfessor
  | "urn:code:attainment-acceptor-type:examinator" => .ok .Examinator
  | "urn:code:attainment-acceptor-type:supervisor" => .ok .Supervisor
  | "urn:code:attainment-acceptor-type:thesis-advisor" => .ok .ThesisAdvisor
  | "urn:code:attainment-acceptor-type:examiner" => .ok .Examiner
  | "urn:code:attainment-acceptor-type:preliminary-examiner" => .ok .PreliminaryExaminer
  | "urn:code:attainment-acceptor-type:opponent" => .ok .Opponent
  | "urn:code:attainment-acceptor-type:custos" => .ok .Custos
  | _ => .error (.invalidValue s roleUrnExpecting)

/-- Embedding of `impl FromStr for RoleURN` from `lib.rs` (lines
184-204): the same exact string match, but with `type Err = ()`, so the
failure carries no information at all. -/
def RoleURN.fromStr (string : String) : Except Unit RoleURN :=
  match string with
  | "urn:code:attainment-acceptor-type:approved-by" => .ok .ApprovedBy
  | "urn:code:attainment-acceptor-type:coordinating-supervisor" => .ok .CoordinatingSupervisor
  | "urn:code:attainment-acceptor-type:coordinating-professor" => .ok .CoordinatingProfessor
  | "urn:code:attainment-acceptor-type:supervising-professor" => .ok .SupervisingProfessor
  | "urn:code:attainment-acceptor-type:more-supervising-professor" => .ok .MoreSupervisingProfessor
  | "urn:code:attainment-acceptor-type:examinator" => .ok .Examinator
  | "urn:code:attainment-acceptor-type:supervisor" => .ok .Supervisor
  | "urn:code:attainment-acceptor-type:thesis-advisor" => .ok .ThesisAdvisor
  | "urn:code:attainment-acceptor-type:examiner" => .ok .Examiner
  | "urn:code:attainment-acceptor-type:preliminary-examiner" => .ok .PreliminaryExaminer
  | "urn:code:attainment-acceptor-type:opponent" => .ok .Opponent
  | "urn:code:attainment-acceptor-type:custos" => .ok .Custos
  | _ => .error ()

/-- Localized string of the `lib.rs` revision. -/
structure LocalizedString where
  en : String
  fi : String
  sv : String
  deriving DecidableEq, Repr

/-- Derived deserialization of a localized string: a plain field copy. -/
def LocalizedString.deserialize (r : json.LocalizedString) : LocalizedString :=
  ⟨r.en, r.fi, r.sv⟩

/-- Credit transfer information of the `lib.rs` revision: the transfer
date is kept as a raw `String`. -/
structure CreditTransferInfo where
  credit_transfer_date : String
  educational_institution_urn : String
  international_institution_urn : String
  organisation : String
  deriving DecidableEq, Repr

/-- Derived deserialization of `lib.rs` credit transfer info: a plain
field copy, with no date parsing. -/
def CreditTransferInfo.deserialize (r : json.RawCreditTransferInfo) : CreditTransferInfo :=
  ⟨r.credit_transfer_date, r.educational_institution_urn,
   r.international_institution_urn, r.organisation⟩

/-- State a document is in. -/
inductive DocumentState where
  | Draft
  | Active
  | Deleted
  deriving DecidableEq, Repr

/-- Derived deserialization of `DocumentState` under
`SCREAMING_SNAKE_CASE` renaming. -/
def DocumentState.deserialize (s : String) : Except serde.DeError DocumentState :=
  match s with
  | "DRAFT" => .ok .Draft
  | "ACTIVE" => .ok .Active
  | "DELETED" => .ok .Deleted
  | _ => .error (.unknownVariant s)

/-- Method by which a grade average was calculated. -/
inductive AverageCalculationMethod where
  | CourseUnitArithmeticMeanWeightingByCredits
  | ArithmeticMeanWeightingByCredits
  deriving DecidableEq, Repr

/-- Derived deserialization of `AverageCalculationMethod` under
`SCREAMING_SNAKE_CASE` renaming. -/
def AverageCalculationMethod.deserialize (s : String) :
    Except serde.DeError AverageCalculationMethod :=
  match s with
  | "COURSE_UNIT_ARITHMETIC_MEAN_WEIGHTING_BY_CREDITS" =>
    .ok .CourseUnitArithmeticMeanWeightingByCredits
  | "ARITHMETIC_MEAN_WEIGHTING_BY_CREDITS" =>
    .ok .ArithmeticMeanWeightingByCredits
  | _ => .error (.unknownVariant s)

/-- Information about an average grade calculation. -/
structure GradeAverage where
  grade_scale_id : String
  method : AverageCalculationMethod
  total_included_credits : Rat
  value : Rat
  deriving DecidableEq, Repr

/-- Derived deserialization of `GradeAverage`: only the method string is
interpreted; the numbers are copied. -/
def GradeAverage.deserialize (r : json.RawGradeAverage) :
    Except serde.DeError GradeAverage := do
  let method ← AverageCalculationMethod.deserialize r.method
  pure ⟨r.grade_scale_id, method, r.total_included_credits, r.value⟩

/-- Organisation responsible for an attainment with its role and share
(`OrganisationRoleShareBase`). Doc comments in the source state that the
share is in `(0,1]` and that shares of one role sum to one, but nothing
in the code checks either condition. -/
structure OrganisationRoleShareBase where
  educational_institution_urn : String
  organisation_id : String
  role_urn : String
  share : Rat
  deriving DecidableEq, Repr

/-- Derived deserialization of `OrganisationRoleShareBase`: a plain field
copy with no range or sum validation of the share. -/
def OrganisationRoleShareBase.deserialize (r : json.RawOrganisationRoleShareBase) :
    Except serde.DeError OrganisationRoleShareBase :=
  .ok ⟨r.educational_institution_urn, r.organisation_id, r.role_urn, r.share⟩

/-- State an attainment can be in. -/
inductive AttainmentState where
  | Attained
  | Included
  | Substituted
  | Failed
  deriving DecidableEq, Repr

/-- Derived deserialization of `AttainmentState` under
`SCREAMING_SNAKE_CASE` renaming. -/
def AttainmentState.deserialize (s : String) : Except serde.DeError AttainmentState :=
  match s with
  | "ATTAINED" => .ok .Attained
  | "INCLUDED" => .ok .Included
  | "SUBSTITUTED" => .ok .Substituted
  | "FAILED" => .ok .Failed
  | _ => .error (.unknownVariant s)

/-- Type of an attainment. -/
inductive AttainmentType where
  | AssessmentItemAttainment
  | CourseUnitAttainment
  | ModuleAttainment
  deriving DecidableEq, Repr

/-- Derived deserialization of `AttainmentType` under `PascalCase`
renaming. -/
def AttainmentType.deserialize (s : String) : Except serde.DeError AttainmentType :=
  match s with
  | "AssessmentItemAttainment" => .ok .AssessmentItemAttainment
  | "CourseUnitAttainment" => .ok .CourseUnitAttainment
  | "ModuleAttainment" => .ok .ModuleAttainment
  | _ => .error (.unknownVariant s)

/-- Person or personified role with a responsibility for an attainment. -/
structure PersonWithAttainmentAcceptorType where
  person_id : String
  role_urn : RoleURN
  text : LocalizedString
  title : LocalizedString
  deriving DecidableEq, Repr

/-- Derived deserialization of an acceptor person: the role URN string is
resolved through the custom `RoleURN` visitor. -/
def PersonWithAttainmentAcceptorType.deserialize (r : json.RawAcceptorPerson) :
    Except serde.DeError PersonWithAttainmentAcceptorType := do
  let role_urn ← RoleURN.visitStr r.role_urn
  pure ⟨r.person_id, role_urn, LocalizedString.deserialize r.text,
        LocalizedString.deserialize r.title⟩

/-- The `SISUAttainment` struct of the `lib.rs` revision (lines 22-103):
every date field (`attainment_date`, `expiry_date`, `registration_date`)
is a plain `String`, stored exactly as it appears in the JSON. -/
structure SISUAttainment where
  acceptor_persons : List PersonWithAttainmentAcceptorType
  additional_info : LocalizedString
  attainment_date : String
  attainment_language_urn : String
  credit_transfer_info : CreditTransferInfo
  credits : Rat
  document_state : DocumentState
  expiry_date : String
  grade_average : GradeAverage
  grade_id : Rat
  grade_scale_id : String
  id : String
  misregistration : Bool
  misregistration_rationale : String
  module_content_application_id : String
  organisations : List OrganisationRoleShareBase
  person_first_names : String
  person_id : String
  person_last_name : String
  person_student_number : String
  primary : Bool
  registration_date : String
  state : AttainmentState
  student_application_id : String
  study_field_urn : String
  study_right_id : String
  study_weeks : Rat
  attainment_type : AttainmentType
  verifier_person_id : String
  deriving DecidableEq, Repr

/-- Whole-record deserialization of the `lib.rs` revision of
`SISUAttainment`, as generated by the serde derive: nested sequences are
read element-wise, the fixed enum strings are interpreted, and the date
fields are copied verbatim without any parsing or validation. -/
def SISUAttainment.deserialize (raw : json.RawSISUAttainment) :
    Except serde.DeError SISUAttainment := do
  let acceptor_persons ←
    serde.mapDeserialize PersonWithAttainmentAcceptorType.deserialize raw.acceptor_persons
  let document_state ← DocumentState.deserialize raw.document_state
  let grade_average ← GradeAverage.deserialize raw.grade_average
  let organisations ←
    serde.mapDeserialize OrganisationRoleShareBase.deserialize raw.organisations
  let state ← AttainmentState.deserialize raw.state
  let attainment_type ← AttainmentType.deserialize raw.attainment_type
  pure ⟨acceptor_persons, LocalizedString.deserialize raw.additional_info,
        raw.attainment_date, raw.attainment_language_urn,
        CreditTransferInfo.deserialize raw.credit_transfer_info,
        raw.credits, document_state, raw.expiry_date, grade_average,
        raw.grade_id, raw.grade_scale_id, raw.id, raw.misregistration,
        raw.misregistration_rationale, raw.module_content_application_id,
        organisations, raw.person_first_names, raw.person_id,
        raw.person_last_name, raw.person_student_number, raw.primary,
        raw.registration_date, state, raw.student_application_id,
        raw.study_field_urn, raw.study_right_id, raw.study_weeks,
        attainment_type, raw.verifier_person_id⟩

end lib

/-- Outcome of calling a Rust function that returns a bare value but may
panic: either the value, or a panic with its message. There is no error
variant, mirroring the absence of a `Result` in the function signature. -/
inductive RustOutcome (α : Type) where
  | ok (val : α)
  | panicked (msg : String)

namespace sisu_attainment

/-- Role that an attainment creditor might possess: the duplicate
`RoleURN` enum of `sisu_attainment.rs` (lines 131-144). -/
inductive RoleURN where
  | ApprovedBy
  | CoordinatingSupervisor
  | CoordinatingProfessor
  | SupervisingProfessor
  | MoreSupervisingProfessor
  | Examinator
  | Supervisor
  | ThesisAdvisor
  | Examiner
  | PreliminaryExaminer
  | Opponent
  | Custos
  deriving DecidableEq, Repr

/-- Embedding of `RoleURNVisitor::visit_str` of `sisu_attainment.rs`
(lines 159-187): textually the same twelve-URN match as the `lib.rs`
visitor, raising `Error::invalid_value(Unexpected::Str(s), &self)` on any
other string. -/
def RoleURN.visitStr (s : String) : Except serde.DeError RoleURN :=
  match s with
  | "urn:code:attainment-acceptor-type:approved-by" => .ok .ApprovedBy
  | "urn:code:attainment-acceptor-type:coordinating-supervisor" => .ok .CoordinatingSupervisor
  | "urn:code:attainment-acceptor-type:coordinating-professor" => .ok .CoordinatingProfessor
  | "urn:code:attainment-acceptor-type:supervising-professor" => .ok .SupervisingProfessor
  | "urn:code:attainment-acceptor-type:more-supervising-professor" => .ok .MoreSupervisingProfessor
  | "urn:code:attainment-acceptor-type:examinator" => .ok .Examinator
  | "urn:code:attainment-acceptor-type:supervisor" => .ok .Supervisor
  | "urn:code:attainment-acceptor-type:thesis-advisor" => .ok .ThesisAdvisor
  | "urn:code:attainment-acceptor-type:examiner" => .ok .Examiner
  | "urn:code:attainment-acceptor-type:preliminary-examiner" => .ok .PreliminaryExaminer
  | "urn:code:attainment-acceptor-type:opponent" => .ok .Opponent
  | "urn:code:attainment-acceptor-type:custos" => .ok .Custos
  | _ => .error (.invalidValue s lib.roleUrnExpecting)

/-- Localized string of the `sisu_attainment.rs` revision. -/
structure LocalizedString where
  en : String
  fi : String
  sv : String
  deriving DecidableEq, Repr

/-- Derived deserialization of a localized string: a plain field copy. -/
def LocalizedString.deserialize (r : json.LocalizedString) : LocalizedString :=
  ⟨r.en, r.fi, r.sv⟩

/-- Deserialization of a `chrono::naive::NaiveDate` field from a JSON
string: the `%Y-%m-%d` parse of the chrono model; a malformed string is a
deserialization error carrying the offending value, never a default. -/
def deserializeDate (s : String) : Except serde.DeError chrono.NaiveDate :=
  match chrono.NaiveDate.parse s with
  | some d => .ok d
  | none => .error (.dateParse s)

/-- Credit transfer information of the `sisu_attainment.rs` revision: the
transfer date is a parsed `chrono::naive::NaiveDate`. -/
structure CreditTransferInfo where
  credit_transfer_date : chrono.NaiveDate
  educational_institution_urn : String
  international_institution_urn : String
  organisation : String
  deriving DecidableEq, Repr

/-- Derived deserialization of credit transfer info: the date string must
parse; the other fields are copied. -/
def CreditTransferInfo.deserialize (r : json.RawCreditTransferInfo) :
    Except serde.DeError CreditTransferInfo := do
  let credit_transfer_date ← deserializeDate r.credit_transfer_date
  pure ⟨credit_transfer_date, r.educational_institution_urn,
        r.international_institution_urn, r.organisation⟩

/-- State a document is in. -/
inductive DocumentState where
  | Draft
  | Active
  | Deleted
  deriving DecidableEq, Repr

/-- Derived deserialization of `DocumentState` under
`SCREAMING_SNAKE_CASE` renaming. -/
def DocumentState.deserialize (s : String) : Except serde.DeError DocumentState :=
  match s with
  | "DRAFT" => .ok .Draft
  | "ACTIVE" => .ok .Active
  | "DELETED" => .ok .Deleted
  | _ => .error (.unknownVariant s)

/-- Method by which a grade average was calculated. -/
inductive AverageCalculationMethod where
  | CourseUnitArithmeticMeanWeightingByCredits
  | ArithmeticMeanWeightingByCredits
  deriving DecidableEq, Repr

/-- Derived deserialization of `AverageCalculationMethod` under
`SCREAMING_SNAKE_CASE` renaming. -/
def AverageCalculationMethod.deserialize (s : String) :
    Except serde.DeError AverageCalculationMethod :=
  match s with
  | "COURSE_UNIT_ARITHMETIC_MEAN_WEIGHTING_BY_CREDITS" =>
    .ok .CourseUnitArithmeticMeanWeightingByCredits
  | "ARITHMETIC_MEAN_WEIGHTING_BY_CREDITS" =>
    .ok .ArithmeticMeanWeightingByCredits
  | _ => .error (.unknownVariant s)

/-- Information about an average grade calculation. -/
structure GradeAverage where
  grade_scale_id : String
  method : AverageCalculationMethod
  total_included_credits : Rat
  value : Rat
  deriving DecidableEq, Repr

/-- Derived deserialization of `GradeAverage`. -/
def GradeAverage.deserialize (r : json.RawGradeAverage) :
    Except serde.DeError GradeAverage := do
  let method ← AverageCalculationMethod.deserialize r.method
  pure ⟨r.grade_scale_id, method, r.total_included_credits, r.value⟩

/-- Organisation responsible for an attainment with its role and share
(`OrganisationRoleShareBase` in `sisu_attainment.rs`, lines 253-268).
Doc comments state the share policy (greater than zero, at most one, the
shares of one role summing to one); no code checks it. -/
structure OrganisationRoleShareBase where
  educational_institution_urn : String
  organisation_id : String
  role_urn : String
  share : Rat
  deriving DecidableEq, Repr

/-- Derived deserialization of `OrganisationRoleShareBase`: a plain field
copy with no range or sum validation of the share. -/
def OrganisationRoleShareBase.deserialize (r : json.RawOrganisationRoleShareBase) :
    Except serde.DeError OrganisationRoleShareBase :=
  .ok ⟨r.educational_institution_urn, r.organisation_id, r.role_urn, r.share⟩

/-- State an attainment can be in. -/
inductive AttainmentState where
  | Attained
  | Included
  | Substituted
  | Failed
  deriving DecidableEq, Repr

/-- Derived deserialization of `AttainmentState` under
`SCREAMING_SNAKE_CASE` renaming. -/
def AttainmentState.deserialize (s : String) : Except serde.DeError AttainmentState :=
  match s with
  | "ATTAINED" => .ok .Attained
  | "INCLUDED" => .ok .Included
  | "SUBSTITUTED" => .ok .Substituted
  | "FAILED" => .ok .Failed
  | _ => .error (.unknownVariant s)

/-- Type of an attainment. -/
inductive AttainmentType where
  | AssessmentItemAttainment
  | CourseUnitAttainment
  | ModuleAttainment
  deriving DecidableEq, Repr

/-- Derived deserialization of `AttainmentType` under `PascalCase`
renaming. -/
def AttainmentType.deserialize (s : String) : Except serde.DeError AttainmentType :=
  match s with
  | "AssessmentItemAttainment" => .ok .AssessmentItemAttainment
  | "CourseUnitAttainment" => .ok .CourseUnitAttainment
  | "ModuleAttainment" => .ok .ModuleAttainment
  | _ => .error (.unknownVariant s)

/-- Person or personified role with a responsibility for an attainment. -/
structure PersonWithAttainmentAcceptorType where
  person_id : String
  role_urn : RoleURN
  text : LocalizedString
  title : LocalizedString
  deriving DecidableEq, Repr

/-- Derived deserialization of an acceptor person through the `RoleURN`
visitor of this module. -/
def PersonWithAttainmentAcceptorType.deserialize (r : json.RawAcceptorPerson) :
    Except serde.DeError PersonWithAttainmentAcceptorType := do
  let role_urn ← RoleURN.visitStr r.role_urn
  pure ⟨r.person_id, role_urn, LocalizedString.deserialize r.text,
        LocalizedString.deserialize r.title⟩

/-- The `SISUAttainment` struct of `sisu_attainment.rs` (lines 17-104):
the date fields are parsed `chrono::naive::NaiveDate` values. -/
structure SISUAttainment where
  acceptor_persons : List PersonWithAttainmentAcceptorType
  additional_info : LocalizedString
  attainment_date : chrono.NaiveDate
  attainment_language_urn : String
  credit_transfer_info : CreditTransferInfo
  credits : Rat
  document_state : DocumentState
  expiry_date : chrono.NaiveDate
  grade_average : GradeAverage
  grade_id : Rat
  grade_scale_id : String
  id : String
  misregistration : Bool
  misregistration_rationale : String
  module_content_application_id : String
  organisations : List OrganisationRoleShareBase
  person_first_names : String
  person_id : String
  person_last_name : String
  person_student_number : String
  primary : Bool
  registration_date : chrono.NaiveDate
  state : AttainmentState
  student_application_id : String
  study_field_urn : String
  study_right_id : String
  study_weeks : Rat
  attainment_type : AttainmentType
  verifier_person_id : String
  deriving DecidableEq, Repr

/-- Whole-record deserialization of the `sisu_attainment.rs` revision of
`SISUAttainment`, as generated by the serde derive: sequences are read
element-wise, enum strings are interpreted, and the three date fields
(plus the credit-transfer date) must parse as `%Y-%m-%d` dates, any
failure aborting the whole record. -/
def SISUAttainment.deserialize (raw : json.RawSISUAttainment) :
    Except serde.DeError SISUAttainment := do
  let acceptor_persons ←
    serde.mapDeserialize PersonWithAttainmentAcceptorType.deserialize raw.acceptor_persons
  let attainment_date ← deserializeDate raw.attainment_date
  let credit_transfer_info ← CreditTransferInfo.deserialize raw.credit_transfer_info
  let document_state ← DocumentState.deserialize raw.document_state
  let expiry_date ← deserializeDate raw.expiry_date
  let grade_average ← GradeAverage.deserialize raw.grade_average
  let organisations ←
    serde.mapDeserialize OrganisationRoleShareBase.deserialize raw.organisations
  let registration_date ← deserializeDate raw.registration_date
  let state ← AttainmentState.deserialize raw.state
  let attainment_type ← AttainmentType.deserialize raw.attainment_type
  pure ⟨acceptor_persons, LocalizedString.deserialize raw.additional_info,
        attainment_date, raw.attainment_language_urn, credit_transfer_info,
        raw.credits, document_state, expiry_date, grade_average,
        raw.grade_id, raw.grade_scale_id, raw.id, raw.misregistration,
        raw.misregistration_rationale, raw.module_content_application_id,
        organisations, raw.person_first_names, raw.person_id,
        raw.person_last_name, raw.person_student_number, raw.primary,
        registration_date, state, raw.student_application_id,
        raw.study_field_urn, raw.study_right_id, raw.study_weeks,
        attainment_type, raw.verifier_person_id⟩

/-- Embedding of `impl ToEuropassCredential for SISUAttainment`
(`sisu_attainment.rs`, lines 106-112): the function signature promises a
bare `EuropassCredential` with no error channel, and the body is the
unimplemented `todo!()` macro, which panics with the message shown here
on every input. -/
def SISUAttainment.to_europass_credential (attainment : SISUAttainment) :
    RustOutcome europass_learning_model.EuropassCredential :=
  .panicked "not yet implemented"

end sisu_attainment

/-- Localized string of the Swagger example response used by the tests of
the repository. -/
def exampleLocalized : json.LocalizedString :=
  ⟨"English version", "Finnish version", "Swedish version"⟩

/-- Raw JSON shape of the example attainment response of the SISU Swagger
UI, as embedded in the test module of `sisu_attainment.rs` (dates written
as `2019-01-01`, every other scalar the placeholder `string`). -/
def exampleRaw : json.RawSISUAttainment where
  acceptor_persons :=
    [⟨"string", "urn:code:attainment-acceptor-type:approved-by",
      exampleLocalized, exampleLocalized⟩]
  additional_info := exampleLocalized
  attainment_date := "2019-01-01"
  attainment_language_urn := "string"
  credit_transfer_info := ⟨"2019-01-01", "string", "string", "string"⟩
  credits := 0
  document_state := "DRAFT"
  expiry_date := "2019-01-01"
  grade_average :=
    ⟨"string", "COURSE_UNIT_ARITHMETIC_MEAN_WEIGHTING_BY_CREDITS", 0, 0⟩
  grade_id := 0
  grade_scale_id := "string"
  id := "string"
  misregistration := true
  misregistration_rationale := "string"
  module_content_application_id := "string"
  organisations := [⟨"string", "string", "string", 0⟩]
  person_first_names := "string"
  person_id := "string"
  person_last_name := "string"
  person_student_number := "string"
  primary := true
  registration_date := "2019-01-01"
  state := "ATTAINED"
  student_application_id := "string"
  study_field_urn := "string"
  study_right_id := "string"
  study_weeks := 0
  attainment_type := "AssessmentItemAttainment"
  verifier_person_id := "string"

/-- Typed attainment the `sisu_attainment.rs` deserializer produces for
the Swagger example, matching the expectations of the repository's own
tests field by field. -/
def exampleAttainment : sisu_attainment.SISUAttainment where
  acceptor_persons :=
    [⟨"string", .ApprovedBy, ⟨"English version", "Finnish version", "Swedish version"⟩,
      ⟨"English version", "Finnish version", "Swedish version"⟩⟩]
  additional_info := ⟨"English version", "Finnish version", "Swedish version"⟩
  attainment_date := ⟨2019, 1, 1⟩
  attainment_language_urn := "string"
  credit_transfer_info := ⟨⟨2019, 1, 1⟩, "string", "string", "string"⟩
  credits := 0
  document_state := .Draft
  expiry_date := ⟨2019, 1, 1⟩
  grade_average := ⟨"string", .CourseUnitArithmeticMeanWeightingByCredits, 0, 0⟩
  grade_id := 0
  grade_scale_id := "string"
  id := "string"
  misregistration := true
  misregistration_rationale := "string"
  module_content_application_id := "string"
  organisations := [⟨"string", "string", "string", 0⟩]
  person_first_names := "string"
  person_id := "string"
  person_last_name := "string"
  person_student_number := "string"
  primary := true
  registration_date := ⟨2019, 1, 1⟩
  state := .Attained
  student_application_id := "string"
  study_field_urn := "string"
  study_right_id := "string"
  study_weeks := 0
  attainment_type := .AssessmentItemAttainment
  verifier_person_id := "string"

/-- Raw attainment whose single organisation entry has a role share of
one half, so the shares of that role sum to 1/2 instead of 1. -/
def rawHalfShare : json.RawSISUAttainment :=
  { exampleRaw with
    organisations := [⟨"string", "string", "urn:role", (1 : Rat)/2⟩] }

/-- Typed attainment the deserializer produces for `rawHalfShare`. -/
def attHalfShare : sisu_attainment.SISUAttainment :=
  { exampleAttainment with
    organisations := [⟨"string", "string", "urn:role", (1 : Rat)/2⟩] }

/-- Raw attainment whose `attainmentDate` does not parse as a date. -/
def rawBadDate : json.RawSISUAttainment :=
  { exampleRaw with attainment_date := "not-a-date" }

/-- Raw JSON of the Swagger example as embedded in the test module of
`lib.rs`: there every field, the dates included, is the placeholder
`string`. -/
def libExampleRaw : json.RawSISUAttainment :=
  { exampleRaw with
    attainment_date := "string"
    expiry_date := "string"
    registration_date := "string"
    credit_transfer_info := ⟨"string", "string", "string", "string"⟩ }

/-- Identifier value with an empty content string and a scheme version id
supplied without a scheme id; the model constructs it without complaint. -/
def emptyContentIdentifier : europass_learning_model.Identifier where
  content := ""
  identifier_scheme_id := ""
  identifier_scheme_version_id := "1.0"
  identifier_scheme_agency_id := ""
  identifier_scheme_name := ""
  identifier_scheme_agency_name := ""
  issued_date := ⟨2020, 1, 1⟩
  identifier_type := ""

/-- Inhabitant-eliminator of `Organisation`: every organisation would
have to contain the strictly smaller organisation of its mandatory
`has_unit` field, so none exists. -/
def organisationElim : europass_learning_model.Organisation → False
  | .mk _ _ _ _ _ _ _ _ _ _ _ hu _ _ => organisationElim hu

/-- Inhabitant-eliminator of `LearningSpecification` through its
mandatory `has_part` field. -/
def learningSpecificationElim : europass_learning_model.LearningSpecification → False
  | .mk _ _ _ _ _ _ _ _ _ _ _ _ _ _ _ _ _ _ _ _ _ _ _ _ _ _ _ hp _ =>
    learningSpecificationElim hp

/-- Inhabitant-eliminator of `LearningActivitySpecification` through its
mandatory `has_part` field. -/
def learningActivitySpecificationElim :
    europass_learning_model.LearningActivitySpecification → False
  | .mk _ _ _ _ _ _ _ _ _ _ _ _ _ hp _ => learningActivitySpecificationElim hp

/-- Inhabitant-eliminator of `AssessmentSpecification` through its
mandatory `has_part` field. -/
def assessmentSpecificationElim :
    europass_learning_model.AssessmentSpecification → False
  | .mk _ _ _ _ _ _ _ _ _ _ _ _ _ hp _ => assessmentSpecificationElim hp

/-- Inhabitant-eliminator of `EntitlementSpecification` through its
mandatory `entitlement_specification` field. -/
def entitlementSpecificationElim :
    europass_learning_model.EntitlementSpecification → False
  | .mk _ _ _ _ _ _ _ _ _ _ _ _ _ _ _ es _ => entitlementSpecificationElim es

/-- Inhabitant-eliminator of `EuropassCredential` through its mandatory
`issuer` organisation. -/
def europassCredentialElim : europass_learning_model.EuropassCredential → False
  | .mk _ _ _ _ issuer _ _ _ _ _ => organisationElim issuer

theorem except_bind_ok_iff {ε α β : Type} (e : Except ε α) (k : α → Except ε β) (b : β) :
    (e >>= k) = .ok b ↔ ∃ a, e = .ok a ∧ k a = .ok b := by
  cases e <;> simp [Bind.bind, Except.bind]

theorem mapDeserialize_ok_mem {α β : Type} {f : α → Except serde.DeError β}
    {l : List α} {res : List β} (h : serde.mapDeserialize f l = .ok res) :
    ∀ x ∈ l, ∃ y, f x = .ok y := by
  induction l generalizing res with
  | nil => intro x hx; cases hx
  | cons a as ih =>
    intro x hx
    rw [serde.mapDeserialize] at h
    obtain ⟨y, hy, h2⟩ := (except_bind_ok_iff _ _ _).mp h
    obtain ⟨ys, hys, _⟩ := (except_bind_ok_iff _ _ _).mp h2
    cases hx with
    | head => exact ⟨y, hy⟩
    | tail _ hx => exact ih hys x hx

theorem mapDeserialize_pureOk {α β : Type} (g : α → β) (l : List α) :
    serde.mapDeserialize (fun x => .ok (g x)) l = .ok (l.map g) := by
  induction l with
  | nil => rfl
  | cons a as ih =>
    rw [serde.mapDeserialize, ih]
    rfl

theorem deserializeDate_ok {s : String} {d : chrono.NaiveDate}
    (h : sisu_attainment.deserializeDate s = .ok d) :
    chrono.NaiveDate.parse s = some d := by
  unfold sisu_attainment.deserializeDate at h
  split at h <;> simp_all

theorem sisu_deserialize_ok_inv {raw : json.RawSISUAttainment}
    {att : sisu_attainment.SISUAttainment}
    (h : sisu_attainment.SISUAttainment.deserialize raw = .ok att) :
    (serde.mapDeserialize sisu_attainment.PersonWithAttainmentAcceptorType.deserialize
        raw.acceptor_persons = .ok att.acceptor_persons) ∧
    chrono.NaiveDate.parse raw.attainment_date = some att.attainment_date ∧
    chrono.NaiveDate.parse raw.expiry_date = some att.expiry_date ∧
    chrono.NaiveDate.parse raw.registration_date = some att.registration_date ∧
    att.organisations = raw.organisations.map
      (fun r => ⟨r.educational_institution_urn, r.organisation_id,
                 r.role_urn, r.share⟩) := by
  simp only [sisu_attainment.SISUAttainment.deserialize, except_bind_ok_iff,
    pure, Except.pure, Except.ok.injEq] at h
  obtain ⟨acc, hacc, ad, had, cti, hcti, ds, hds, ed, hed, ga, hga,
    orgs, horgs, rd, hrd, st, hst, aty, haty, heq⟩ := h
  subst heq
  refine ⟨hacc, deserializeDate_ok had, deserializeDate_ok hed,
    deserializeDate_ok hrd, ?_⟩
  rw [show sisu_attainment.OrganisationRoleShareBase.deserialize =
      (fun r : json.RawOrganisationRoleShareBase =>
        Except.ok (⟨r.educational_institution_urn, r.organisation_id,
          r.role_urn, r.share⟩ : sisu_attainment.OrganisationRoleShareBase))
      from rfl, mapDeserialize_pureOk] at horgs
  cases horgs
  rfl

theorem sisu_visitStr_ok_mem {s : String} {r : sisu_attainment.RoleURN}
    (h : sisu_attainment.RoleURN.visitStr s = .ok r) : s ∈ lib.roleUrnStrings := by
  unfold sisu_attainment.RoleURN.visitStr at h
  split at h <;> first | decide | cases h

theorem sisu_visitStr_not_mem {s : String} (hs : s ∉ lib.roleUrnStrings) :
    sisu_attainment.RoleURN.visitStr s =
      .error (.invalidValue s lib.roleUrnExpecting) := by
  unfold sisu_attainment.RoleURN.visitStr
  split
  all_goals first | rfl | (exact absurd (by decide) hs)

theorem lib_fromStr_not_mem {s : String} (hs : s ∉ lib.roleUrnStrings) :
    lib.RoleURN.fromStr s = .error () := by
  unfold lib.RoleURN.fromStr
  split
  all_goals first | rfl | (exact absurd (by decide) hs)

theorem sisu_deserialize_ok_roles {raw : json.RawSISUAttainment}
    {att : sisu_attainment.SISUAttainment}
    (h : sisu_attainment.SISUAttainment.deserialize raw = .ok att) :
    ∀ p ∈ raw.acceptor_persons, p.role_urn ∈ lib.roleUrnStrings := by
  intro p hp
  obtain ⟨hacc, -⟩ := sisu_deserialize_ok_inv h
  obtain ⟨y, hy⟩ := mapDeserialize_ok_mem hacc p hp
  simp only [sisu_attainment.PersonWithAttainmentAcceptorType.deserialize,
    except_bind_ok_iff, pure, Except.pure] at hy
  obtain ⟨r, hr, -⟩ := hy
  exact sisu_visitStr_ok_mem hr

/-- C1: vocabulary validation over the fixed tables is exact and
case-sensitive: every code of the measurement-unit table maps to its
matching term and every code of the currency table round-trips to an `Ok`
carrying that code, while every string outside the respective table —
including the lowercase variant `eur` of a valid code and the unknown
code `XYZ` — is rejected with the error of the fall-through arm; no
normalization or partial match occurs. -/
theorem mdr_vocabulary_exact_validation :
    (∀ p ∈ controlled_vocabularies.MDRunitTable,
       controlled_vocabularies.MDRunit.tryFrom p.1 = .ok p.2) ∧
    (∀ s, s ∉ controlled_vocabularies.MDRunitCodes →
       controlled_vocabularies.MDRunit.tryFrom s =
         .error "Could not form a Europass measure from a string…") ∧
    (∀ s ∈ controlled_vocabularies.MDRcurrencyCodes,
       controlled_vocabularies.MDRcurrency.tryFrom s = .ok ⟨s⟩) ∧
    (∀ s, s ∉ controlled_vocabularies.MDRcurrencyCodes →
       controlled_vocabularies.MDRcurrency.tryFrom s =
         .error (controlled_vocabularies.currencyErrMsg s)) ∧
    controlled_vocabularies.MDRcurrency.tryFrom "EUR" = .ok ⟨"EUR"⟩ ∧
    controlled_vocabularies.MDRcurrency.tryFrom "eur" =
      .error (controlled_vocabularies.currencyErrMsg "eur") ∧
    controlled_vocabularies.MDRcurrency.tryFrom "XYZ" =
      .error (controlled_vocabularies.currencyErrMsg "XYZ") := by
  refine ⟨?_, ?_, ?_, ?_, ?_, ?_, ?_⟩
  · intro p hp
    fin_cases hp <;> rfl
  · intro s hs
    unfold controlled_vocabularies.MDRunit.tryFrom
    split
    all_goals first | rfl | (exact absurd (by decide) hs)
  · intro s hs
    unfold controlled_vocabularies.MDRcurrency.tryFrom
    rw [if_pos hs]
  · intro s hs
    unfold controlled_vocabularies.MDRcurrency.tryFrom
    rw [if_neg hs]
  · rfl
  · rfl
  · rfl

/-- Witness for C1: the theorem applied at the concrete non-member
strings `QQQ` and `eur` and at the concrete table entry for hours. -/
theorem mdr_vocabulary_exact_validation_witness :
    controlled_vocabularies.MDRunit.tryFrom "QQQ" =
      .error "Could not form a Europass measure from a string…" ∧
    controlled_vocabularies.MDRcurrency.tryFrom "eur" =
      .error (controlled_vocabularies.currencyErrMsg "eur") ∧
    controlled_vocabularies.MDRunit.tryFrom "HUR" = .ok .Hour :=
  ⟨mdr_vocabulary_exact_validation.2.1 "QQQ" (by decide),
   mdr_vocabulary_exact_validation.2.2.2.1 "eur" (by decide),
   mdr_vocabulary_exact_validation.1 ("HUR", .Hour) (by decide)⟩

/-- C10: whenever currency validation succeeds, the code stored in the
resulting `MDRcurrency` is exactly the input string: the accepted
currency code round-trips unchanged through construction. -/
theorem mdrcurrency_code_roundtrip (s : String)
    (c : controlled_vocabularies.MDRcurrency)
    (h : controlled_vocabularies.MDRcurrency.tryFrom s = .ok c) :
    c.code = s := by
  unfold controlled_vocabularies.MDRcurrency.tryFrom at h
  by_cases hm : s ∈ controlled_vocabularies.MDRcurrencyCodes
  · rw [if_pos hm] at h
    cases h
    rfl
  · rw [if_neg hm] at h
    cases h

/-- Witness for C10: the theorem applied at the accepted code `EUR`. -/
theorem mdrcurrency_code_roundtrip_witness :
    (controlled_vocabularies.MDRcurrency.mk "EUR").code = "EUR" :=
  mdrcurrency_code_roundtrip "EUR" ⟨"EUR"⟩ (by rfl)

/-- C9: the two independent role-URN parsers — the serde visitor and the
`FromStr` implementation — are equivalent: on every input string they
succeed on exactly the same twelve URN strings, map each accepted string
to the same variant, and fail on every other string; the duplicated
visitor of the `sisu_attainment.rs` revision accepts exactly the same
strings as well. -/
theorem roleurn_parsers_equivalent :
    (∀ s, (lib.RoleURN.fromStr s).toOption = (lib.RoleURN.visitStr s).toOption) ∧
    (∀ s, (lib.RoleURN.fromStr s).toOption.isSome = true ↔ s ∈ lib.roleUrnStrings) ∧
    lib.roleUrnStrings.length = 12 ∧
    (∀ s, (sisu_attainment.RoleURN.visitStr s).toOption.isSome =
       (lib.RoleURN.fromStr s).toOption.isSome) := by
  refine ⟨?_, ?_, rfl, ?_⟩
  · intro s
    unfold lib.RoleURN.fromStr lib.RoleURN.visitStr
    split <;> rfl
  · intro s
    unfold lib.RoleURN.fromStr
    split
    all_goals first | decide | simp_all [lib.roleUrnStrings, Except.toOption]
  · intro s
    unfold sisu_attainment.RoleURN.visitStr lib.RoleURN.fromStr
    split <;> rfl

/-- C4 counterexample: role-URN resolution through `FromStr` returns a
bare, context-free failure — the unit error of `type Err = ()` — which
carries neither the offending field name nor the raw value, contradicting
the claimed `UnknownCode` error shape. -/
theorem roleurn_fromstr_bare_failure :
    lib.RoleURN.fromStr "urn:code:unknown-role" = .error () := rfl

/-- C4 as amended: for every string outside the twelve known
attainment-acceptor URNs, the serde visitor rejects it with an
invalid-value error carrying the raw string (but no field name), the
`FromStr` implementation rejects it with a bare unit error, and no record
containing such a role URN ever deserializes successfully, so no
credential can arise from it. -/
theorem unknown_role_urn_rejected (s : String) (hs : s ∉ lib.roleUrnStrings) :
    sisu_attainment.RoleURN.visitStr s =
      .error (.invalidValue s lib.roleUrnExpecting) ∧
    lib.RoleURN.fromStr s = .error () ∧
    ∀ raw att, (∃ p ∈ json.RawSISUAttainment.acceptor_persons raw,
        json.RawAcceptorPerson.role_urn p = s) →
      sisu_attainment.SISUAttainment.deserialize raw ≠ .ok att := by
  refine ⟨sisu_visitStr_not_mem hs, lib_fromStr_not_mem hs, ?_⟩
  rintro raw att ⟨p, hp, hps⟩ hok
  have hmem := sisu_deserialize_ok_roles hok p hp
  rw [hps] at hmem
  exact hs hmem

/-- Witness for C4: the amended theorem applied at the concrete unknown
URN of the claim. -/
theorem unknown_role_urn_rejected_witness :
    sisu_attainment.RoleURN.visitStr "urn:code:unknown-role" =
      .error (.invalidValue "urn:code:unknown-role" lib.roleUrnExpecting) ∧
    lib.RoleURN.fromStr "urn:code:unknown-role" = .error () :=
  ⟨(unknown_role_urn_rejected "urn:code:unknown-role" (by decide)).1,
   (unknown_role_urn_rejected "urn:code:unknown-role" (by decide)).2.1⟩

/-- C3 counterexample: on the concrete Swagger example attainment the
mapping does not return a credential or an error value — it panics, the
body of `to_europass_credential` being the unimplemented `todo!()` stub,
and its signature offering no error channel at all. -/
theorem mapping_stub_panics_on_example :
    sisu_attainment.SISUAttainment.to_europass_credential exampleAttainment =
      .panicked "not yet implemented" := rfl

/-- C3 as amended: for every source attainment, the mapping operation
panics with the `todo!()` message; it never returns a credential, partial
or full, and never returns a structured error value. -/
theorem mapping_stub_never_returns (a : sisu_attainment.SISUAttainment) :
    sisu_attainment.SISUAttainment.to_europass_credential a =
      .panicked "not yet implemented" := rfl

/-- Witness for C3: the amended theorem applied at the concrete example
attainment. -/
theorem mapping_stub_never_returns_witness :
    sisu_attainment.SISUAttainment.to_europass_credential exampleAttainment =
      .panicked "not yet implemented" :=
  mapping_stub_never_returns exampleAttainment

/-- C5 counterexample: a source record whose single organisation share is
one half — so the shares of that role sum to 1/2, not 1 — deserializes
successfully; no `NumericRangeError` exists anywhere in the code. -/
theorem half_share_record_accepted :
    (sisu_attainment.SISUAttainment.deserialize rawHalfShare).toOption.map
      (fun a => a.organisations.map (fun o => o.share)) =
      some [(1 : Rat)/2] ∧
    ([(1 : Rat)/2].sum = (1 : Rat)/2) ∧ ((1 : Rat)/2 ≠ 1) := by
  refine ⟨rfl, ?_, by norm_num⟩
  simp

/-- C5 as amended: the share bounds and the sum-to-one policy are stated
only in documentation; deserialization copies every organisation share
through unvalidated, with no range or sum check, and the record is
accepted whatever the shares are. -/
theorem org_shares_pass_through_unvalidated :
    (∀ r : json.RawOrganisationRoleShareBase,
       sisu_attainment.OrganisationRoleShareBase.deserialize r =
         .ok ⟨r.educational_institution_urn, r.organisation_id,
              r.role_urn, r.share⟩) ∧
    (∀ raw att, sisu_attainment.SISUAttainment.deserialize raw = .ok att →
       att.organisations.map (fun o => o.share) =
         raw.organisations.map (fun r => r.share)) := by
  refine ⟨fun r => rfl, ?_⟩
  intro raw att h
  have h5 := (sisu_deserialize_ok_inv h).2.2.2.2
  rw [h5, List.map_map]
  rfl

/-- Witness for C5: the amended theorem applied at the concrete
half-share record. -/
theorem org_shares_pass_through_unvalidated_witness :
    attHalfShare.organisations.map (fun o => o.share) =
      rawHalfShare.organisations.map (fun r => r.share) :=
  org_shares_pass_through_unvalidated.2 rawHalfShare attHalfShare (by rfl)

/-- C6 counterexample: in the `lib.rs` revision of `SISUAttainment` the
date fields are plain strings and no parsing happens at all — the
repository's own example record, whose `attainmentDate` is the malformed
string `string`, is accepted verbatim instead of failing with a
date-parse error. -/
theorem lib_revision_accepts_malformed_date :
    (lib.SISUAttainment.deserialize libExampleRaw).toOption.map
      (fun a => a.attainment_date) = some "string" := rfl

/-- C6 as amended: in the `sisu_attainment.rs` revision every date field
is parsed into a calendar date — a successfully deserialized record
stores exactly the parses of its date strings, never a default — and a
record whose `attainmentDate` does not parse never deserializes; the
`lib.rs` revision however keeps dates as unparsed strings. -/
theorem sisu_dates_parsed_not_defaulted :
    (∀ raw att, sisu_attainment.SISUAttainment.deserialize raw = .ok att →
       chrono.NaiveDate.parse raw.attainment_date = some att.attainment_date ∧
       chrono.NaiveDate.parse raw.expiry_date = some att.expiry_date ∧
       chrono.NaiveDate.parse raw.registration_date =
         some att.registration_date) ∧
    (∀ raw, chrono.NaiveDate.parse raw.attainment_date = none →
       ∀ att, sisu_attainment.SISUAttainment.deserialize raw ≠ .ok att) := by
  refine ⟨?_, ?_⟩
  · intro raw att h
    obtain ⟨-, h2, h3, h4, -⟩ := sisu_deserialize_ok_inv h
    exact ⟨h2, h3, h4⟩
  · intro raw hnone att hok
    have hparse := (sisu_deserialize_ok_inv hok).2.1
    rw [hnone] at hparse
    cases hparse

/-- Witness for C6: the amended theorem applied at the concrete example
record (a real date) and at the concrete malformed record. -/
theorem sisu_dates_parsed_not_defaulted_witness :
    chrono.NaiveDate.parse exampleRaw.attainment_date =
      some exampleAttainment.attainment_date ∧
    sisu_attainment.SISUAttainment.deserialize rawBadDate ≠
      .ok exampleAttainment :=
  ⟨(sisu_dates_parsed_not_defaulted.1 exampleRaw exampleAttainment (by rfl)).1,
   sisu_dates_parsed_not_defaulted.2 rawBadDate (by rfl) exampleAttainment⟩

/-- C7 counterexample: an `Identifier` with empty content — and with a
scheme version id supplied without a scheme id — is constructed without
any failure: no `Identifier::new` gate and no `InvalidIdentifier` error
exist in the code. -/
theorem identifier_empty_content_constructible :
    emptyContentIdentifier.content = "" ∧
    emptyContentIdentifier.identifier_scheme_id = "" ∧
    emptyContentIdentifier.identifier_scheme_version_id = "1.0" :=
  ⟨rfl, rfl, rfl⟩

/-- C7 as amended: `Identifier` is a plain record with no validating
constructor; construction is total and stores the content verbatim, so
identifiers with any content — the empty string included — are
constructible. -/
theorem identifier_construction_unchecked :
    (∀ (c sid svid said sn san : String) (d : chrono.NaiveDate) (t : String),
       (europass_learning_model.Identifier.mk c sid svid said sn san d t).content
         = c) ∧
    (∀ c : String, ∃ i : europass_learning_model.Identifier, i.content = c) :=
  ⟨fun _ _ _ _ _ _ _ _ => rfl,
   fun c => ⟨⟨c, "", "", "", "", "", ⟨2020, 1, 1⟩, ""⟩, rfl⟩⟩

/-- C2: the model never rejects a cycle-creating edge with any
`StructuralCycle` error — no such error or checked constructor exists —
and in fact no composite entity carrying a self-referential relation can
be constructed at all: the mandatory self-referential fields leave
`Organisation`, `EuropassCredential` and all four specification types
without a single inhabitant. -/
theorem self_referential_model_unconstructible :
    IsEmpty europass_learning_model.Organisation ∧
    IsEmpty europass_learning_model.EuropassCredential ∧
    IsEmpty europass_learning_model.LearningSpecification ∧
    IsEmpty europass_learning_model.LearningActivitySpecification ∧
    IsEmpty europass_learning_model.AssessmentSpecification ∧
    IsEmpty europass_learning_model.EntitlementSpecification :=
  ⟨⟨organisationElim⟩, ⟨europassCredentialElim⟩, ⟨learningSpecificationElim⟩,
   ⟨learningActivitySpecificationElim⟩, ⟨assessmentSpecificationElim⟩,
   ⟨entitlementSpecificationElim⟩⟩

/-- C8: because `Organisation` declares `has_unit` and `unit_of` as
mandatory boxed values (and `LearningSpecification` likewise `has_part`
and `specialisation_of`), no finite value of either type exists, and,
`issuer` being a mandatory `Organisation`, no `EuropassCredential` can be
constructed either. -/
theorem mandatory_boxed_self_reference_uninhabited :
    IsEmpty europass_learning_model.Organisation ∧
    IsEmpty europass_learning_model.LearningSpecification ∧
    IsEmpty europass_learning_model.EuropassCredential :=
  ⟨⟨organisationElim⟩, ⟨learningSpecificationElim⟩, ⟨europassCredentialElim⟩⟩
